import Mathlib

/-!
# Verification of the LogisticMapGenerator LADSPA plugin

Shallow embedding of `logisticmap.cpp`, a LADSPA plugin generating noise by
iterating the logistic map x[n+1] = r * x[n] * (1 - x[n]).

Modelling conventions:
* `LADSPA_Data` (a C `float`) is embedded as `ℚ`, exact arithmetic over the
  numerals appearing in the source; the properties verified here are exact
  algebraic identities (clamping, fixed points, sequencing), not
  rounding-dependent facts.
* C pointers (`LADSPA_Data *`) are embedded as optional addresses
  (`Option ℕ`, `none` being the null pointer), with host memory an explicit
  map from addresses to values.  Dereferencing a null pointer is modelled as
  an `Option` failure.
* The writes `outbuf[0..n-1]` performed by `lmng_run` are returned as a list
  of length `n` (the values written at consecutive indices starting at 0).
* The C++ `unsigned long sampleCount` and port indices are embedded as `ℕ`.
-/

set_option linter.unusedVariables false

abbrev LADSPA_Data : Type := ℚ

abbrev Addr : Type := ℕ

abbrev Ptr : Type := Option Addr

abbrev Mem : Type := Addr → LADSPA_Data

/-- Port indices from the source: `const unsigned long PORT_R = 0;` etc. -/
def PORT_R : ℕ := 0

def PORT_SEED : ℕ := 1

def PORT_OUT : ℕ := 2

def PORT_COUNT : ℕ := 3

/-- `#define PLUGIN_BASE 1` -/
def PLUGIN_BASE : ℕ := 1

/-- `#define PLUGIN_ID(x) (PLUGIN_BASE + x)` -/
def PLUGIN_ID (x : ℕ) : ℕ := PLUGIN_BASE + x

/-- The identity fields of the static `LADSPA_Descriptor plugin` record. -/
structure LADSPA_Descriptor where
  uniqueID : ℕ
  label : String
  name : String
  maker : String
  copyright : String
  portCount : ℕ
deriving DecidableEq

/-- The single static descriptor `const LADSPA_Descriptor plugin = {...}`. -/
def plugin : LADSPA_Descriptor :=
  { uniqueID := PLUGIN_ID 0
  , label := "LogisticMapGenerator"
  , name := "Logistic Map noise generator"
  , maker := "Kythyria Tieran"
  , copyright := "None"
  , portCount := PORT_COUNT }

/-- The address of the static `plugin` descriptor (the C value `&plugin`).
Descriptor pointers are compared by address, as `lmng_new` does. -/
def pluginAddr : Addr := 0

/-- `ladspa_descriptor(Index)`: returns `NULL` for `Index > 0`, else `&plugin`. -/
def ladspa_descriptor (Index : ℕ) : Option Addr :=
  if Index > 0 then none else some pluginAddr

/-- The instance state `class lmng_state`: three `LADSPA_Data *` members and
one `LADSPA_Data current`. -/
structure lmng_state where
  r : Ptr
  seed : Ptr
  outbuf : Ptr
  current : LADSPA_Data
deriving DecidableEq

/-- `lmng_new(desc, samplerate)`: returns `NULL` when `desc != &plugin`,
otherwise `new lmng_state()` — value-initialization, so all pointer members
are null and `current` is `0.0f`. -/
def lmng_new (desc : Addr) (samplerate : ℕ) : Option lmng_state :=
  if desc ≠ pluginAddr then none
  else some { r := none, seed := none, outbuf := none, current := 0 }

/-- `lmng_connect(instance, port, location)`: the `switch(port)` statement. -/
def lmng_connect (inst : lmng_state) (port : ℕ) (location : Ptr) : lmng_state :=
  if port = PORT_R then { inst with r := location }
  else if port = PORT_SEED then { inst with seed := location }
  else if port = PORT_OUT then { inst with outbuf := location }
  else inst

/-- `lmng_activate(instance)`: `inst->current = *(inst->seed);` — a null
`seed` pointer makes the dereference fail. -/
def lmng_activate (mem : Mem) (inst : lmng_state) : Option lmng_state :=
  match inst.seed with
  | none => none
  | some sa => some { inst with current := mem sa }

/-- One step of the recurrence, the loop body assignment
`inst->current = r * inst->current * (1 - inst->current);`. -/
def lmng_step (r x : LADSPA_Data) : LADSPA_Data := r * x * (1 - x)

/-- The body of the `for` loop in `lmng_run`: at each iteration write
`current` to the output, then advance `current` by `lmng_step`.  Returns the
list of written values and the final `current`. -/
def lmng_run_loop (r : LADSPA_Data) (current : LADSPA_Data) :
    ℕ → List LADSPA_Data × LADSPA_Data
  | 0 => ([], current)
  | n + 1 =>
      let rest := lmng_run_loop r (lmng_step r current) n
      (current :: rest.1, rest.2)

/-- `lmng_run(instance, sampleCount)`: reads `*(inst->r)` once, applies the
two sequential clamping `if`s, then runs the loop.  The `r` pointer is
dereferenced unconditionally; the `outbuf` pointer only when the loop body
executes (`sampleCount > 0`). -/
def lmng_run (mem : Mem) (inst : lmng_state) (sampleCount : ℕ) :
    Option (List LADSPA_Data × lmng_state) :=
  match inst.r with
  | none => none
  | some ra =>
      let r0 := mem ra
      let r1 := if r0 > 4 then (4 : LADSPA_Data) else r0
      let r2 := if r1 < 0 then (0 : LADSPA_Data) else r1
      match sampleCount, inst.outbuf with
      | 0, _ => some ([], inst)
      | _ + 1, none => none
      | n + 1, some _ =>
          let res := lmng_run_loop r2 inst.current (n + 1)
          some (res.1, { inst with current := res.2 })

/-- The combined effect of the two sequential clamping `if`s in `lmng_run`,
as a single function: clamp into [0, 4]. -/
def clampR (r : LADSPA_Data) : LADSPA_Data :=
  if r > 4 then 4 else if r < 0 then 0 else r

/-! ## Helper lemmas -/

lemma clampR_mem (r : LADSPA_Data) : 0 ≤ clampR r ∧ clampR r ≤ 4 := by
  unfold clampR
  split_ifs <;> constructor <;> linarith

lemma clampR_seq (r0 : LADSPA_Data) :
    (if (if r0 > 4 then (4 : LADSPA_Data) else r0) < 0 then (0 : LADSPA_Data)
      else if r0 > 4 then (4 : LADSPA_Data) else r0) = clampR r0 := by
  unfold clampR
  split_ifs <;> first | rfl | linarith

lemma lmng_run_loop_eq (r x : LADSPA_Data) (n : ℕ) :
    lmng_run_loop r x n =
      ((List.range n).map fun i => (lmng_step r)^[i] x, (lmng_step r)^[n] x) := by
  induction n generalizing x with
  | zero => simp [lmng_run_loop]
  | succ n ih =>
      rw [lmng_run_loop, ih (lmng_step r x)]
      refine Prod.ext ?_ ?_
      · simp [List.range_succ_eq_map, List.map_map, Function.comp_def,
          Function.iterate_succ_apply]
      · simp [Function.iterate_succ_apply]

/-- Closed form of `lmng_run` when the `r` and `outbuf` ports are bound:
sample `i` is the `i`-th iterate of the map at the incoming state, and the
final state holds the `n`-th iterate. -/
lemma lmng_run_eq (mem : Mem) (inst : lmng_state) (ra oa : Addr) (n : ℕ)
    (hr : inst.r = some ra) (ho : inst.outbuf = some oa) :
    lmng_run mem inst n =
      some ((List.range n).map fun i => (lmng_step (clampR (mem ra)))^[i] inst.current,
        { inst with current := (lmng_step (clampR (mem ra)))^[n] inst.current }) := by
  cases n with
  | zero =>
      simp [lmng_run, hr]
      rw [← hr]
  | succ n =>
      simp only [lmng_run, hr, ho, lmng_run_loop_eq]
      rw [show (if (if mem ra > 4 then (4 : LADSPA_Data) else mem ra) < 0
            then (0 : LADSPA_Data)
            else if mem ra > 4 then (4 : LADSPA_Data) else mem ra) = clampR (mem ra)
          from clampR_seq (mem ra)]

lemma lmng_step_zero (r : LADSPA_Data) : lmng_step r 0 = 0 := by
  unfold lmng_step; ring

lemma lmng_step_one (r : LADSPA_Data) : lmng_step r 1 = 0 := by
  unfold lmng_step; ring

lemma iterate_lmng_step_zero (r : LADSPA_Data) (n : ℕ) :
    (lmng_step r)^[n] 0 = 0 := by
  induction n with
  | zero => rfl
  | succ n ih => rw [Function.iterate_succ_apply, lmng_step_zero, ih]

lemma lmng_step_unit (r x : LADSPA_Data) (hr0 : 0 ≤ r) (hr4 : r ≤ 4)
    (hx0 : 0 ≤ x) (hx1 : x ≤ 1) : 0 ≤ lmng_step r x ∧ lmng_step r x ≤ 1 := by
  unfold lmng_step
  constructor
  · exact mul_nonneg (mul_nonneg hr0 hx0) (by linarith)
  · nlinarith [sq_nonneg (1 - 2 * x),
      mul_nonneg (sub_nonneg.mpr hr4) (mul_nonneg hx0 (show (0 : ℚ) ≤ 1 - x by linarith))]

lemma iterate_lmng_step_unit (r x : LADSPA_Data) (hr0 : 0 ≤ r) (hr4 : r ≤ 4)
    (hx0 : 0 ≤ x) (hx1 : x ≤ 1) (n : ℕ) :
    0 ≤ (lmng_step r)^[n] x ∧ (lmng_step r)^[n] x ≤ 1 := by
  induction n with
  | zero => exact ⟨hx0, hx1⟩
  | succ n ih =>
      rw [Function.iterate_succ_apply']
      exact lmng_step_unit r _ hr0 hr4 ih.1 ih.2

lemma iterate_lmng_step_one (r : LADSPA_Data) (n : ℕ) :
    (lmng_step r)^[n + 1] 1 = 0 := by
  rw [Function.iterate_succ_apply, lmng_step_one, iterate_lmng_step_zero]

lemma map_range_iterate_zero (r : LADSPA_Data) (n : ℕ) :
    ((List.range n).map fun i => (lmng_step r)^[i] 0) = List.replicate n 0 := by
  refine List.eq_replicate_iff.mpr ⟨by simp, ?_⟩
  intro b hb
  simp only [List.mem_map, List.mem_range] at hb
  obtain ⟨i, _, rfl⟩ := hb
  exact iterate_lmng_step_zero r i

lemma map_range_iterate_one (r : LADSPA_Data) (n : ℕ) :
    ((List.range (n + 1)).map fun i => (lmng_step r)^[i] 1) =
      1 :: List.replicate n 0 := by
  rw [List.range_succ_eq_map, List.map_cons, List.map_map]
  refine congrArg₂ List.cons (by simp) ?_
  refine List.eq_replicate_iff.mpr ⟨by simp, ?_⟩
  intro b hb
  simp only [List.mem_map, List.mem_range, Function.comp] at hb
  obtain ⟨i, _, rfl⟩ := hb
  exact iterate_lmng_step_one r i

/-! ## Concrete host scenarios used by witnesses and counterexamples

Addresses 0, 1, 2 are the host locations bound to the `r`, `seed` and
`outbuf` ports respectively. -/

/-- Host memory with `*r = 10` (out of range) and `*seed = 1/2`. -/
def wMem : Mem := fun a => if a = 0 then 10 else if a = 1 then 1 / 2 else 0

/-- An instance with all three ports bound and `current = 1/2`. -/
def wInst : lmng_state :=
  { r := some 0, seed := some 1, outbuf := some 2, current := 1 / 2 }

/-- Host memory with `*r = 2` and `*seed = 1`. -/
def c4Mem : Mem := fun a => if a = 0 then 2 else if a = 1 then 1 else 0

/-- An instance with all three ports bound and `current = 0`. -/
def c4Inst : lmng_state :=
  { r := some 0, seed := some 1, outbuf := some 2, current := 0 }

/-- Host memory with `*r = 3` and `*seed = 5` (a seed outside [0,1]). -/
def c9Mem : Mem := fun a => if a = 0 then 3 else if a = 1 then 5 else 0

/-! ## Claim theorems -/

/-- C1: For every instance with ports bound and every sampleCount `n ≥ 0`, a
call to `lmng_run` writes exactly `n` samples where sample `i` equals the
recurrence state before the map is applied for step `i` (the `i`-th iterate
of the map at the incoming `current`); the first sample written by `run`
immediately after `activate` with seed `s` equals `s` exactly, and `current`
after the call equals the value that would be written at a hypothetical next
sample (the `n`-th iterate). -/
theorem claim_C1_run_sequence (mem : Mem) (inst : lmng_state) (ra sa oa : Addr)
    (n : ℕ) (hr : inst.r = some ra) (hs : inst.seed = some sa)
    (ho : inst.outbuf = some oa) :
    lmng_run mem inst n =
      some ((List.range n).map fun i => (lmng_step (clampR (mem ra)))^[i] inst.current,
        { inst with current := (lmng_step (clampR (mem ra)))^[n] inst.current }) ∧
    ∃ inst1 outs inst2,
      lmng_activate mem inst = some inst1 ∧
      lmng_run mem inst1 (n + 1) = some (outs, inst2) ∧
      outs.head? = some (mem sa) := by
  constructor
  · exact lmng_run_eq mem inst ra oa n hr ho
  · refine ⟨{ inst with current := mem sa }, _, _, ?_,
      lmng_run_eq mem _ ra oa (n + 1) hr ho, ?_⟩
    · simp [lmng_activate, hs]
    · simp [List.range_succ_eq_map]

/-- Witness for C1 at a concrete bound instance, `n = 2`. -/
theorem claim_C1_witness :
    wInst.r = some 0 ∧ wInst.seed = some 1 ∧ wInst.outbuf = some 2 ∧
    (lmng_run wMem wInst 2 =
      some ((List.range 2).map fun i => (lmng_step (clampR (wMem 0)))^[i] wInst.current,
        { wInst with current := (lmng_step (clampR (wMem 0)))^[2] wInst.current }) ∧
     ∃ inst1 outs inst2,
       lmng_activate wMem wInst = some inst1 ∧
       lmng_run wMem inst1 (2 + 1) = some (outs, inst2) ∧
       outs.head? = some (wMem 1)) :=
  ⟨rfl, rfl, rfl, claim_C1_run_sequence wMem wInst 0 1 2 2 rfl rfl rfl⟩

/-- C2: in every `lmng_run` call the growth rate is read through the `r`
reference once at the start and clamped to [0,4]; a call with `*r = 10`
yields exactly the same output and final state as the same call with
`*r = 4`, and `*r = -5` the same as `*r = 0`. -/
theorem claim_C2_clamp (mem : Mem) (inst : lmng_state) (ra oa : Addr) (n : ℕ)
    (hr : inst.r = some ra) (ho : inst.outbuf = some oa) :
    lmng_run (Function.update mem ra 10) inst n =
      lmng_run (Function.update mem ra 4) inst n ∧
    lmng_run (Function.update mem ra (-5)) inst n =
      lmng_run (Function.update mem ra 0) inst n ∧
    0 ≤ clampR (mem ra) ∧ clampR (mem ra) ≤ 4 := by
  refine ⟨?_, ?_, (clampR_mem (mem ra)).1, (clampR_mem (mem ra)).2⟩
  · rw [lmng_run_eq _ _ ra oa n hr ho, lmng_run_eq _ _ ra oa n hr ho]
    norm_num [Function.update_same, clampR]
  · rw [lmng_run_eq _ _ ra oa n hr ho, lmng_run_eq _ _ ra oa n hr ho]
    norm_num [Function.update_same, clampR]

/-- Witness for C2 at a concrete bound instance, `n = 1`. -/
theorem claim_C2_witness :
    wInst.r = some 0 ∧ wInst.outbuf = some 2 ∧
    (lmng_run (Function.update wMem 0 10) wInst 1 =
       lmng_run (Function.update wMem 0 4) wInst 1 ∧
     lmng_run (Function.update wMem 0 (-5)) wInst 1 =
       lmng_run (Function.update wMem 0 0) wInst 1 ∧
     0 ≤ clampR (wMem 0) ∧ clampR (wMem 0) ≤ 4) :=
  ⟨rfl, rfl, claim_C2_clamp wMem wInst 0 2 1 rfl rfl⟩

/-- C3: for every `r ∈ [0,4]` and `x ∈ [0,1]` one recurrence step lands in
[0,1]; hence `lmng_run` (whose effective growth rate is always the clamped
value) keeps `current ∈ [0,1]` across every step and every sample it writes
lies in [0,1]. -/
theorem claim_C3_unit_interval (r x : LADSPA_Data) (mem : Mem)
    (inst : lmng_state) (ra oa : Addr) (n : ℕ)
    (hr0 : 0 ≤ r) (hr4 : r ≤ 4) (hx0 : 0 ≤ x) (hx1 : x ≤ 1)
    (hir : inst.r = some ra) (ho : inst.outbuf = some oa)
    (hc0 : 0 ≤ inst.current) (hc1 : inst.current ≤ 1) :
    (0 ≤ lmng_step r x ∧ lmng_step r x ≤ 1) ∧
    ∃ outs inst1, lmng_run mem inst n = some (outs, inst1) ∧
      (∀ y ∈ outs, 0 ≤ y ∧ y ≤ 1) ∧ 0 ≤ inst1.current ∧ inst1.current ≤ 1 := by
  refine ⟨lmng_step_unit r x hr0 hr4 hx0 hx1, ?_⟩
  refine ⟨_, _, lmng_run_eq mem inst ra oa n hir ho, ?_, ?_, ?_⟩
  · intro y hy
    simp only [List.mem_map, List.mem_range] at hy
    obtain ⟨i, _, rfl⟩ := hy
    exact iterate_lmng_step_unit _ _ (clampR_mem _).1 (clampR_mem _).2 hc0 hc1 i
  · exact (iterate_lmng_step_unit _ _ (clampR_mem _).1 (clampR_mem _).2 hc0 hc1 n).1
  · exact (iterate_lmng_step_unit _ _ (clampR_mem _).1 (clampR_mem _).2 hc0 hc1 n).2

/-- Witness for C3 at `r = 4`, `x = 1/2`, a concrete bound instance, `n = 2`. -/
theorem claim_C3_witness :
    (0 ≤ (4 : LADSPA_Data) ∧ (4 : LADSPA_Data) ≤ 4 ∧
     0 ≤ (1 / 2 : LADSPA_Data) ∧ (1 / 2 : LADSPA_Data) ≤ 1 ∧
     wInst.r = some 0 ∧ wInst.outbuf = some 2 ∧
     0 ≤ wInst.current ∧ wInst.current ≤ 1) ∧
    ((0 ≤ lmng_step 4 (1 / 2) ∧ lmng_step 4 (1 / 2) ≤ 1) ∧
     ∃ outs inst1, lmng_run wMem wInst 2 = some (outs, inst1) ∧
       (∀ y ∈ outs, 0 ≤ y ∧ y ≤ 1) ∧ 0 ≤ inst1.current ∧ inst1.current ≤ 1) :=
  ⟨⟨by norm_num, by norm_num, by norm_num, by norm_num, rfl, rfl,
      by norm_num [wInst], by norm_num [wInst]⟩,
    claim_C3_unit_interval 4 (1 / 2) wMem wInst 0 2 2
      (by norm_num) (by norm_num) (by norm_num) (by norm_num) rfl rfl
      (by norm_num [wInst]) (by norm_num [wInst])⟩

/-- C4 counterexample: with `*seed = 1` (and `*r = 2`), `activate` followed by
`run` over 2 samples writes `[1, 0]`, not the constant sequence `[1, 1]`:
seed 1 is not a fixed point of the recurrence — the first step maps it to
`r * 1 * (1 - 1) = 0`. -/
theorem claim_C4_counterexample :
    ((lmng_activate c4Mem c4Inst).bind fun i1 => lmng_run c4Mem i1 2).map Prod.fst =
      some [1, 0] ∧
    ¬ ([(1 : LADSPA_Data), 0] = List.replicate 2 (1 : LADSPA_Data)) := by
  constructor
  · norm_num [lmng_activate, lmng_run, lmng_run_loop, lmng_step, c4Mem, c4Inst,
      Option.bind]
  · norm_num [List.replicate]

/-- C4 as amended: seed 0 is a fixed point — `run` after `activate` with
`*seed = 0` writes the all-zero sequence for every sample count and leaves
the state unchanged.  Seed 1 is not a fixed point but is mapped to the fixed
point 0 by the first step: `run` after `activate` with `*seed = 1` writes 1
followed by zeros, and `current` ends at 0. -/
theorem claim_C4_amended_fixed_points (mem : Mem) (inst : lmng_state)
    (ra sa oa : Addr) (n : ℕ)
    (hr : inst.r = some ra) (hs : inst.seed = some sa) (ho : inst.outbuf = some oa) :
    (mem sa = 0 →
      ∃ inst1, lmng_activate mem inst = some inst1 ∧
        lmng_run mem inst1 n = some (List.replicate n 0, inst1)) ∧
    (mem sa = 1 →
      ∃ inst1 inst2, lmng_activate mem inst = some inst1 ∧
        lmng_run mem inst1 (n + 1) = some (1 :: List.replicate n 0, inst2) ∧
        inst2.current = 0) := by
  constructor
  · intro h0
    refine ⟨{ inst with current := mem sa }, by simp [lmng_activate, hs], ?_⟩
    rw [lmng_run_eq mem { inst with current := mem sa } ra oa n hr ho]
    dsimp only
    rw [h0, map_range_iterate_zero, iterate_lmng_step_zero]
  · intro h1
    refine ⟨{ inst with current := mem sa }, { inst with current := 0 },
      by simp [lmng_activate, hs], ?_, rfl⟩
    rw [lmng_run_eq mem { inst with current := mem sa } ra oa (n + 1) hr ho]
    dsimp only
    rw [h1, map_range_iterate_one, iterate_lmng_step_one]

/-- Witness for the amended C4 at the concrete seed-1 scenario, `n + 1 = 2`. -/
theorem claim_C4_witness :
    c4Inst.r = some 0 ∧ c4Inst.seed = some 1 ∧ c4Inst.outbuf = some 2 ∧
    c4Mem 1 = 1 ∧
    (∃ inst1 inst2, lmng_activate c4Mem c4Inst = some inst1 ∧
      lmng_run c4Mem inst1 (1 + 1) = some (1 :: List.replicate 1 0, inst2) ∧
      inst2.current = 0) :=
  ⟨rfl, rfl, rfl, rfl,
    (claim_C4_amended_fixed_points c4Mem c4Inst 0 1 2 1 rfl rfl rfl).2 rfl⟩

/-- C5: with ports bound, `lmng_run` never fails for any sample count — it
returns a full output of exactly `n` samples — and `run` with sample count 0
performs no writes and leaves the instance (in particular `current`)
unchanged. -/
theorem claim_C5_never_fails (mem : Mem) (inst : lmng_state) (ra oa : Addr)
    (n : ℕ) (hr : inst.r = some ra) (ho : inst.outbuf = some oa) :
    (∃ outs inst1, lmng_run mem inst n = some (outs, inst1) ∧ outs.length = n) ∧
    lmng_run mem inst 0 = some ([], inst) := by
  constructor
  · exact ⟨_, _, lmng_run_eq mem inst ra oa n hr ho, by simp⟩
  · simp [lmng_run, hr]

/-- Witness for C5 at a concrete bound instance, `n = 5`. -/
theorem claim_C5_witness :
    wInst.r = some 0 ∧ wInst.outbuf = some 2 ∧
    ((∃ outs inst1, lmng_run wMem wInst 5 = some (outs, inst1) ∧ outs.length = 5) ∧
     lmng_run wMem wInst 0 = some ([], wInst)) :=
  ⟨rfl, rfl, claim_C5_never_fails wMem wInst 0 2 5 rfl rfl⟩

/-- C6: `ladspa_descriptor` is a pure lookup: index 0 returns the single
plugin descriptor (`&plugin`), every index greater than 0 returns the null
sentinel. -/
theorem claim_C6_discovery :
    ladspa_descriptor 0 = some pluginAddr ∧
    ∀ i : ℕ, 0 < i → ladspa_descriptor i = none := by
  constructor
  · rfl
  · intro i hi
    simp [ladspa_descriptor, hi]

/-- Witness for C6 at index 3. -/
theorem claim_C6_witness : 0 < 3 ∧ ladspa_descriptor 3 = none :=
  ⟨by norm_num, claim_C6_discovery.2 3 (by norm_num)⟩

/-- C7: `lmng_new` returns the null handle iff the descriptor passed is not
this plugin's (`&plugin`); for the matching descriptor it returns a fresh
instance regardless of the sample rate argument. -/
theorem claim_C7_instantiate (desc : Addr) (sr sr2 : ℕ) :
    (lmng_new desc sr = none ↔ desc ≠ pluginAddr) ∧
    lmng_new pluginAddr sr2 =
      some { r := none, seed := none, outbuf := none, current := 0 } := by
  constructor
  · unfold lmng_new
    split_ifs with h <;> simp [h]
  · simp [lmng_new]

/-- Witness for C7 at a foreign descriptor address and two sample rates. -/
theorem claim_C7_witness :
    (lmng_new 3 44100 = none ↔ (3 : Addr) ≠ pluginAddr) ∧
    lmng_new pluginAddr 48000 =
      some { r := none, seed := none, outbuf := none, current := 0 } :=
  claim_C7_instantiate 3 44100 48000

/-- C8: `lmng_connect` with port index 0, 1 or 2 updates only the
corresponding binding (`r`, `seed`, `outbuf` respectively); any other port
index is a silent no-op; rebinding a port overwrites the previous binding,
so the most recent binding per port is the one held in the state consulted
by subsequent `run` and `activate` calls. -/
theorem claim_C8_connect (inst : lmng_state) (loc loc2 : Ptr) :
    lmng_connect inst PORT_R loc = { inst with r := loc } ∧
    lmng_connect inst PORT_SEED loc = { inst with seed := loc } ∧
    lmng_connect inst PORT_OUT loc = { inst with outbuf := loc } ∧
    (∀ p : ℕ, p ≠ PORT_R → p ≠ PORT_SEED → p ≠ PORT_OUT →
      lmng_connect inst p loc = inst) ∧
    lmng_connect (lmng_connect inst PORT_R loc) PORT_R loc2 =
      lmng_connect inst PORT_R loc2 ∧
    lmng_connect (lmng_connect inst PORT_SEED loc) PORT_SEED loc2 =
      lmng_connect inst PORT_SEED loc2 ∧
    lmng_connect (lmng_connect inst PORT_OUT loc) PORT_OUT loc2 =
      lmng_connect inst PORT_OUT loc2 := by
  refine ⟨?_, ?_, ?_, ?_, ?_, ?_, ?_⟩
  · simp [lmng_connect, PORT_R]
  · simp [lmng_connect, PORT_R, PORT_SEED]
  · simp [lmng_connect, PORT_R, PORT_SEED, PORT_OUT]
  · intro p h1 h2 h3
    simp [lmng_connect, h1, h2, h3]
  · simp [lmng_connect, PORT_R]
  · simp [lmng_connect, PORT_R, PORT_SEED]
  · simp [lmng_connect, PORT_R, PORT_SEED, PORT_OUT]

/-- Witness for C8: the invalid-port clause at port 5 on a concrete instance. -/
theorem claim_C8_witness :
    (5 : ℕ) ≠ PORT_R ∧ (5 : ℕ) ≠ PORT_SEED ∧ (5 : ℕ) ≠ PORT_OUT ∧
    lmng_connect wInst 5 (some 7) = wInst :=
  ⟨by norm_num [PORT_R], by norm_num [PORT_SEED], by norm_num [PORT_OUT],
    (claim_C8_connect wInst (some 7) (some 8)).2.2.2.1 5
      (by norm_num [PORT_R]) (by norm_num [PORT_SEED]) (by norm_num [PORT_OUT])⟩

/-- C9: `lmng_activate` copies the value read through the `seed` reference
into `current` with no clamping or validation (the equation holds for every
memory value at the seed address, including values outside [0,1]); running
`N` samples, activating again (same memory, hence same seed value), then
running `N` samples again produces two identical output sequences and final
states. -/
theorem claim_C9_activate (mem : Mem) (inst : lmng_state) (ra sa oa : Addr)
    (N : ℕ) (hr : inst.r = some ra) (hs : inst.seed = some sa)
    (ho : inst.outbuf = some oa) :
    lmng_activate mem inst = some { inst with current := mem sa } ∧
    ∃ inst1 outs1 inst2 inst3 outs2 inst4,
      lmng_activate mem inst = some inst1 ∧
      lmng_run mem inst1 N = some (outs1, inst2) ∧
      lmng_activate mem inst2 = some inst3 ∧
      lmng_run mem inst3 N = some (outs2, inst4) ∧
      outs1 = outs2 ∧ inst4 = inst2 := by
  constructor
  · simp [lmng_activate, hs]
  · refine ⟨{ inst with current := mem sa },
      (List.range N).map fun i => (lmng_step (clampR (mem ra)))^[i] (mem sa),
      { inst with current := (lmng_step (clampR (mem ra)))^[N] (mem sa) },
      { inst with current := mem sa },
      (List.range N).map fun i => (lmng_step (clampR (mem ra)))^[i] (mem sa),
      { inst with current := (lmng_step (clampR (mem ra)))^[N] (mem sa) },
      ?_, ?_, ?_, ?_, rfl, rfl⟩
    · simp [lmng_activate, hs]
    · exact lmng_run_eq mem { inst with current := mem sa } ra oa N hr ho
    · simp [lmng_activate, hs]
    · exact lmng_run_eq mem { inst with current := mem sa } ra oa N hr ho

/-- Witness for C9 at a concrete instance with `*seed = 5`, outside [0,1],
passed through uninterpreted; `N = 3`. -/
theorem claim_C9_witness :
    c4Inst.r = some 0 ∧ c4Inst.seed = some 1 ∧ c4Inst.outbuf = some 2 ∧
    (lmng_activate c9Mem c4Inst = some { c4Inst with current := c9Mem 1 } ∧
     ∃ inst1 outs1 inst2 inst3 outs2 inst4,
       lmng_activate c9Mem c4Inst = some inst1 ∧
       lmng_run c9Mem inst1 3 = some (outs1, inst2) ∧
       lmng_activate c9Mem inst2 = some inst3 ∧
       lmng_run c9Mem inst3 3 = some (outs2, inst4) ∧
       outs1 = outs2 ∧ inst4 = inst2) :=
  ⟨rfl, rfl, rfl, claim_C9_activate c9Mem c4Inst 0 1 2 3 rfl rfl rfl⟩

/-- C10: a fresh instance is value-initialized — null port references and
`current = 0`; `connect` never changes `current`; and a `run` before any
`activate` on a bound instance whose `current` is 0 writes the all-zero
sequence (0 is a fixed point of the map) and leaves the instance unchanged. -/
theorem claim_C10_fresh_instance (sr : ℕ) (mem : Mem) (inst : lmng_state)
    (ra oa : Addr) (p : ℕ) (loc : Ptr) (n : ℕ)
    (hr : inst.r = some ra) (ho : inst.outbuf = some oa)
    (hc : inst.current = 0) :
    lmng_new pluginAddr sr =
      some { r := none, seed := none, outbuf := none, current := 0 } ∧
    (lmng_connect inst p loc).current = inst.current ∧
    lmng_run mem inst n = some (List.replicate n 0, inst) := by
  refine ⟨by simp [lmng_new], ?_, ?_⟩
  · unfold lmng_connect
    split_ifs <;> rfl
  · have hinst : ({ inst with current := (0 : LADSPA_Data) } : lmng_state) = inst := by
      rw [← hc]
    rw [lmng_run_eq mem inst ra oa n hr ho, hc, map_range_iterate_zero,
      iterate_lmng_step_zero, hinst]

/-- Witness for C10 at a concrete bound instance with `current = 0`, `n = 3`. -/
theorem claim_C10_witness :
    c4Inst.r = some 0 ∧ c4Inst.outbuf = some 2 ∧ c4Inst.current = 0 ∧
    (lmng_new pluginAddr 44100 =
       some { r := none, seed := none, outbuf := none, current := 0 } ∧
     (lmng_connect c4Inst 1 (some 9)).current = c4Inst.current ∧
     lmng_run c4Mem c4Inst 3 = some (List.replicate 3 0, c4Inst)) :=
  ⟨rfl, rfl, rfl,
    claim_C10_fresh_instance 44100 c4Mem c4Inst 0 2 1 (some 9) 3 rfl rfl rfl⟩
